import Mathlib

/-!
Verification of the caching decision engine of the RESERVIN service worker
(src/service-worker.js). The worker is embedded shallowly: requests,
responses and the two cache generations become Lean structures, the
network becomes an explicit oracle (`NetworkResult`), and each strategy
executor becomes a pure function from request, network oracle and cache
state to a `StrategyResult` recording the produced response, the new cache
state and the number of network fetches performed.
-/

namespace Reservin

/-- Substring test on lists of characters: `leadsWith pat s` holds when
`pat` occurs at the very start of `s` (models the start of a JS
`String.startsWith`). -/
def leadsWith : List Char → List Char → Bool
  | [], _ => true
  | _ :: _, [] => false
  | p :: ps, c :: cs => p == c && leadsWith ps cs

/-- Occurrence of `pat` anywhere in `s`, as lists of characters. -/
def includesAux (pat : List Char) : List Char → Bool
  | [] => leadsWith pat []
  | c :: cs => leadsWith pat (c :: cs) || includesAux pat cs

/-- Model of the JS `String.prototype.includes` used by the fetch handler
for the accept-header and URL pattern tests. -/
def strIncludes (s pat : String) : Bool := includesAux pat.data s.data

/-- Model of the JS `String.prototype.startsWith` used by the fetch
handler to test the URL protocol against the http schemes. -/
def strStartsWith (s pat : String) : Bool := leadsWith pat.data s.data

/-- Characters of a URL up to and including the first colon. -/
def protocolAux : List Char → List Char
  | [] => []
  | c :: cs => if c == ':' then [c] else c :: protocolAux cs

/-- Model of `new URL(request.url).protocol`: the scheme of the URL
including the trailing colon, e.g. `"https:"`. -/
def urlProtocol (url : String) : String := String.mk (protocolAux url.data)

/-- Request descriptor seen by the fetch handler: method, full URL, the
accept header (`none` models a null result of the accept-header lookup)
and the request mode (navigate for page navigations). -/
structure Request where
  method : String
  url : String
  accept : Option String
  mode : String
deriving DecidableEq, Repr

/-- Stored/produced response descriptor: status code, body text and the
`Content-Type` header. -/
structure Response where
  status : Nat
  body : String
  contentType : String
deriving DecidableEq, Repr

/-- Outcome of `fetch(request)`: either it resolves with a response or it
rejects (network unreachable). -/
inductive NetworkResult where
  | ok (resp : Response)
  | err
deriving DecidableEq, Repr

/-- Name of the static cache generation (`CACHE_NAME` in the source). -/
def CACHE_NAME : String := "reservin-v1.0.1"

/-- Name of the dynamic cache generation (`DYNAMIC_CACHE` in the source). -/
def DYNAMIC_CACHE : String := "reservin-dynamic-v1.0.1"

/-- The two cache generations, each a list of URL-keyed stored responses.
The static generation is populated at install, the dynamic generation by
write-through during fetch handling. -/
structure CacheState where
  staticEntries : List (String × Response)
  dynamicEntries : List (String × Response)
deriving DecidableEq, Repr

/-- First entry stored under `key`, if any (model of `cache.match`). -/
def lookupEntry (entries : List (String × Response)) (key : String) : Option Response :=
  match entries with
  | [] => none
  | (k, r) :: rest => if k == key then some r else lookupEntry rest key

/-- Model of `cache.put`: overwrites any entry stored under `key`. -/
def putEntry (entries : List (String × Response)) (key : String) (resp : Response) :
    List (String × Response) :=
  (key, resp) :: entries.filter (fun e => e.fst != key)

/-- Model of `caches.match(request)`: a unified lookup across both
generations, checking the static generation first (it is created first, at
install time) and then the dynamic one. -/
def cachesMatch (st : CacheState) (key : String) : Option Response :=
  match lookupEntry st.staticEntries key with
  | some r => some r
  | none => lookupEntry st.dynamicEntries key

/-- Model of `caches.open(DYNAMIC_CACHE)` followed by `cache.put`: only
the dynamic generation is mutated. -/
def putDynamicState (st : CacheState) (key : String) (resp : Response) : CacheState :=
  { st with dynamicEntries := putEntry st.dynamicEntries key resp }

/-- What a strategy executor produces: the response its promise resolves
with (`none` models resolving with `undefined`), the cache state after any
write-through, and how many network fetches were issued. -/
structure StrategyResult where
  response : Option Response
  state : CacheState
  fetchCalls : Nat
deriving DecidableEq, Repr

/-- The synthesized 408 plain-text response that `networkFirst`
constructs when every fallback misses on a non-navigation request. -/
def networkErrorResponse : Response :=
  { status := 408, body := "Network error happened", contentType := "text/plain" }

/-- The synthesized 503 plain-text response that `cacheFirst` constructs
when the cache misses and the network fetch throws. -/
def resourceUnavailableResponse : Response :=
  { status := 503, body := "Resource not available", contentType := "text/plain" }

/-- Network First strategy (`networkFirst` in the source): try the
network; on a response, write it through to the dynamic generation when its
status is exactly 200 and return it; on a thrown fetch, fall back to the
unified cache lookup, then to the cached `/index.html` for navigations,
then to the synthesized 408 response. The function is total: every path
resolves, no path throws. -/
def networkFirst (req : Request) (net : NetworkResult) (st : CacheState) : StrategyResult :=
  match net with
  | NetworkResult.ok networkResponse =>
    if networkResponse.status == 200 then
      { response := some networkResponse,
        state := putDynamicState st req.url networkResponse,
        fetchCalls := 1 }
    else
      { response := some networkResponse, state := st, fetchCalls := 1 }
  | NetworkResult.err =>
    match cachesMatch st req.url with
    | some cachedResponse => { response := some cachedResponse, state := st, fetchCalls := 1 }
    | none =>
      if req.mode == "navigate" then
        { response := cachesMatch st "/index.html", state := st, fetchCalls := 1 }
      else
        { response := some networkErrorResponse, state := st, fetchCalls := 1 }

/-- Cache First strategy (`cacheFirst` in the source): return a cached
match immediately without touching the network; otherwise fetch, write a
status-200 response through to the dynamic generation, and return whatever
the network produced; if the fetch throws, return the synthesized 503
response. -/
def cacheFirst (req : Request) (net : NetworkResult) (st : CacheState) : StrategyResult :=
  match cachesMatch st req.url with
  | some cachedResponse => { response := some cachedResponse, state := st, fetchCalls := 0 }
  | none =>
    match net with
    | NetworkResult.ok networkResponse =>
      if networkResponse.status == 200 then
        { response := some networkResponse,
          state := putDynamicState st req.url networkResponse,
          fetchCalls := 1 }
      else
        { response := some networkResponse, state := st, fetchCalls := 1 }
    | NetworkResult.err =>
      { response := some resourceUnavailableResponse, state := st, fetchCalls := 1 }

/-- Stale While Revalidate strategy (`staleWhileRevalidate` in the
source): present in the file but never dispatched by the fetch handler.
The background fetch always starts; a cached match is returned
immediately, otherwise the network result (or `undefined` when the
swallowed background fetch failed). -/
def staleWhileRevalidate (req : Request) (net : NetworkResult) (st : CacheState) :
    StrategyResult :=
  let refreshed :=
    match net with
    | NetworkResult.ok resp =>
      if resp.status == 200 then putDynamicState st req.url resp else st
    | NetworkResult.err => st
  match cachesMatch st req.url with
  | some cachedResponse => { response := some cachedResponse, state := refreshed, fetchCalls := 1 }
  | none =>
    match net with
    | NetworkResult.ok resp => { response := some resp, state := refreshed, fetchCalls := 1 }
    | NetworkResult.err => { response := none, state := refreshed, fetchCalls := 1 }

/-- Strategy tags the fetch handler can dispatch to, plus the
stale-while-revalidate executor that exists in the file. `bypass` models
an early `return` without `event.respondWith`. -/
inductive Strategy where
  | bypass
  | networkFirstTag
  | cacheFirstTag
  | staleWhileRevalidateTag
deriving DecidableEq, Repr

/-- Classification performed by the fetch handler, transcribed from its
guard-and-dispatch chain: non-GET and non-http schemes are bypassed; a
missing or empty accept header selects network-first; `text/html` selects
network-first; `image` selects cache-first; the static-asset URL patterns
select cache-first; everything else defaults to network-first. -/
def selectStrategy (req : Request) : Strategy :=
  if req.method != "GET" then Strategy.bypass
  else if !(strStartsWith (urlProtocol req.url) "http") then Strategy.bypass
  else
    match req.accept with
    | none => Strategy.networkFirstTag
    | some acceptHeader =>
      if acceptHeader == "" then Strategy.networkFirstTag
      else if strIncludes acceptHeader "text/html" then Strategy.networkFirstTag
      else if strIncludes acceptHeader "image" then Strategy.cacheFirstTag
      else if strIncludes req.url ".css" || strIncludes req.url ".js" ||
          strIncludes req.url "fonts.googleapis" || strIncludes req.url "fonts.gstatic" ||
          strIncludes req.url "cdn.jsdelivr.net" then Strategy.cacheFirstTag
      else Strategy.networkFirstTag

/-- Outcome of the fetch handler: either it declines to intercept
(an early `return`) or it responds with the result of a strategy. -/
inductive FetchOutcome where
  | bypass
  | respond (r : StrategyResult)
deriving DecidableEq, Repr

/-- Cache state after a fetch-handler outcome: a bypass leaves the caches
untouched. -/
def FetchOutcome.stateAfter (st : CacheState) : FetchOutcome → CacheState
  | FetchOutcome.bypass => st
  | FetchOutcome.respond r => r.state

/-- The fetch event handler, transcribed from the source: skip non-GET
requests and non-http schemes, then dispatch on the accept header and URL
patterns to `networkFirst` or `cacheFirst`. -/
def handleFetch (req : Request) (net : NetworkResult) (st : CacheState) : FetchOutcome :=
  if req.method != "GET" then FetchOutcome.bypass
  else if !(strStartsWith (urlProtocol req.url) "http") then FetchOutcome.bypass
  else
    match req.accept with
    | none => FetchOutcome.respond (networkFirst req net st)
    | some acceptHeader =>
      if acceptHeader == "" then FetchOutcome.respond (networkFirst req net st)
      else if strIncludes acceptHeader "text/html" then
        FetchOutcome.respond (networkFirst req net st)
      else if strIncludes acceptHeader "image" then
        FetchOutcome.respond (cacheFirst req net st)
      else if strIncludes req.url ".css" || strIncludes req.url ".js" ||
          strIncludes req.url "fonts.googleapis" || strIncludes req.url "fonts.gstatic" ||
          strIncludes req.url "cdn.jsdelivr.net" then
        FetchOutcome.respond (cacheFirst req net st)
      else FetchOutcome.respond (networkFirst req net st)

/-- Cache names deleted by the activate handler, transcribed from the
source: every existing name different from both `CACHE_NAME` and
`DYNAMIC_CACHE` is deleted. -/
def activateReclaim (cacheNames : List String) : List String :=
  cacheNames.filter (fun cacheName => cacheName != CACHE_NAME && cacheName != DYNAMIC_CACHE)

/-- Reclaim generalized over the current-names set, as the spec contract
`reclaim(currentNames)` states it; the activate handler instantiates
`currentNames` with the pair `[CACHE_NAME, DYNAMIC_CACHE]`. Returns the
deleted names. Total, hence reclaim always succeeds. -/
def reclaimDeletes (currentNames cacheNames : List String) : List String :=
  cacheNames.filter (fun cacheName => !(currentNames.contains cacheName))

/-- Cache names surviving a reclaim with the given current-names set. -/
def reclaimRemaining (currentNames cacheNames : List String) : List String :=
  cacheNames.filter (fun cacheName => currentNames.contains cacheName)

/-- Concrete image request used to exercise the cache-first path. -/
def imgRequest : Request :=
  { method := "GET", url := "https://example.com/hero.png",
    accept := some "image/png", mode := "no-cors" }

/-- Concrete 404 network response. -/
def notFoundResponse : Response :=
  { status := 404, body := "Not Found", contentType := "text/plain" }

/-- Cache state with both generations empty. -/
def emptyCaches : CacheState := { staticEntries := [], dynamicEntries := [] }

/-- Concrete stored image response. -/
def cachedPng : Response :=
  { status := 200, body := "png-bytes", contentType := "image/png" }

/-- Cache state whose static generation holds the image of `imgRequest`. -/
def pngCaches : CacheState :=
  { staticEntries := [("https://example.com/hero.png", cachedPng)], dynamicEntries := [] }

/-- Concrete navigation request to a page that is never cached. -/
def navRequest : Request :=
  { method := "GET", url := "https://reservin.app/page",
    accept := some "text/html", mode := "navigate" }

/-- Concrete stored entry document. -/
def idxResponse : Response :=
  { status := 200, body := "<html>reservin</html>", contentType := "text/html" }

/-- Cache state whose static generation holds only the entry document. -/
def navCaches : CacheState :=
  { staticEntries := [("/index.html", idxResponse)], dynamicEntries := [] }

/-- Concrete non-navigation API request. -/
def apiRequest : Request :=
  { method := "GET", url := "https://reservin.app/api/bookings",
    accept := some "application/json", mode := "cors" }

/-- Concrete request whose URL matches a static-asset pattern while its
accept header asks for an HTML document. -/
def cssHtmlRequest : Request :=
  { method := "GET", url := "https://cdn.jsdelivr.net/npm/bootstrap.min.css",
    accept := some "text/html", mode := "navigate" }

/-! ## Helper lemmas -/

/-- Frame property of `networkFirst`: the static generation is untouched,
and the dynamic generation either stays unchanged or records exactly one
status-200 network response under the request URL. -/
theorem networkFirst_frame (req : Request) (net : NetworkResult) (st : CacheState) :
    (networkFirst req net st).state.staticEntries = st.staticEntries ∧
    ((networkFirst req net st).state.dynamicEntries = st.dynamicEntries ∨
      ∃ resp, net = NetworkResult.ok resp ∧ resp.status = 200 ∧
        (networkFirst req net st).state.dynamicEntries = putEntry st.dynamicEntries req.url resp) := by
  cases net with
  | ok resp =>
    simp only [networkFirst]
    split
    next h => exact ⟨rfl, Or.inr ⟨resp, rfl, by simpa using h, rfl⟩⟩
    next h => exact ⟨rfl, Or.inl rfl⟩
  | err =>
    simp only [networkFirst]
    rcases hcm : cachesMatch st req.url with _ | c
    · simp only [hcm]
      split
      next => exact ⟨rfl, Or.inl rfl⟩
      next => exact ⟨rfl, Or.inl rfl⟩
    · simp [hcm]

/-- Frame property of `cacheFirst`, mirroring `networkFirst_frame`. -/
theorem cacheFirst_frame (req : Request) (net : NetworkResult) (st : CacheState) :
    (cacheFirst req net st).state.staticEntries = st.staticEntries ∧
    ((cacheFirst req net st).state.dynamicEntries = st.dynamicEntries ∨
      ∃ resp, net = NetworkResult.ok resp ∧ resp.status = 200 ∧
        (cacheFirst req net st).state.dynamicEntries = putEntry st.dynamicEntries req.url resp) := by
  rcases hcm : cachesMatch st req.url with _ | c
  · cases net with
    | ok resp =>
      simp only [cacheFirst, hcm]
      split
      next h => exact ⟨rfl, Or.inr ⟨resp, rfl, by simpa using h, rfl⟩⟩
      next h => exact ⟨rfl, Or.inl rfl⟩
    | err => simp [cacheFirst, hcm]
  · simp [cacheFirst, hcm]

/-- The fetch handler dispatches exactly according to `selectStrategy`. -/
theorem handleFetch_eq_dispatch (req : Request) (net : NetworkResult) (st : CacheState) :
    handleFetch req net st =
      match selectStrategy req with
      | Strategy.bypass => FetchOutcome.bypass
      | Strategy.networkFirstTag => FetchOutcome.respond (networkFirst req net st)
      | Strategy.cacheFirstTag => FetchOutcome.respond (cacheFirst req net st)
      | Strategy.staleWhileRevalidateTag =>
          FetchOutcome.respond (staleWhileRevalidate req net st) := by
  unfold handleFetch selectStrategy
  cases ha : req.accept <;> dsimp only <;> split_ifs <;> rfl

/-- The selector never produces the stale-while-revalidate tag. -/
theorem selectStrategy_not_swr (req : Request) :
    selectStrategy req ≠ Strategy.staleWhileRevalidateTag := by
  unfold selectStrategy
  cases ha : req.accept <;> dsimp only <;> split_ifs <;> simp

/-- A request that is not bypassed used the GET method. -/
theorem selectStrategy_get_of_not_bypass (req : Request)
    (h : selectStrategy req ≠ Strategy.bypass) : req.method = "GET" := by
  unfold selectStrategy at h
  by_cases hm : req.method != "GET"
  · simp [hm] at h
  · simpa using hm

/-! ## Claims -/

/-- C1 counterexample: a cache-first image request with no cache entry
whose network fetch completes with status 404 resolves with the raw 404
network response, not with the synthesized 503 fallback. -/
theorem cacheFirst_404_not_fallback_counterexample :
    (cacheFirst imgRequest (NetworkResult.ok notFoundResponse) emptyCaches).response =
      some notFoundResponse ∧
    (cacheFirst imgRequest (NetworkResult.ok notFoundResponse) emptyCaches).response ≠
      some resourceUnavailableResponse := by
  constructor
  · rfl
  · decide

/-- C1 (amended): for every cache-first request with no matching cache
entry whose network fetch completes with a non-200 status, the strategy
returns the raw network response unchanged and caches nothing; the
synthesized 503 fallback, a status-503 response, is returned exactly when
the fetch throws. -/
theorem cacheFirst_non200_returns_network_response (req : Request) (st : CacheState)
    (resp : Response) (hmiss : cachesMatch st req.url = none) (h200 : resp.status ≠ 200) :
    cacheFirst req (NetworkResult.ok resp) st =
      { response := some resp, state := st, fetchCalls := 1 } ∧
    cacheFirst req NetworkResult.err st =
      { response := some resourceUnavailableResponse, state := st, fetchCalls := 1 } ∧
    resourceUnavailableResponse.status = 503 := by
  refine ⟨?_, ?_, rfl⟩
  · simp only [cacheFirst, hmiss]
    simp [h200]
  · simp [cacheFirst, hmiss]

/-- C1 witness. -/
theorem cacheFirst_non200_returns_network_response_witness :
    cachesMatch emptyCaches imgRequest.url = none ∧ notFoundResponse.status ≠ 200 ∧
    (cacheFirst imgRequest (NetworkResult.ok notFoundResponse) emptyCaches =
      { response := some notFoundResponse, state := emptyCaches, fetchCalls := 1 } ∧
    cacheFirst imgRequest NetworkResult.err emptyCaches =
      { response := some resourceUnavailableResponse, state := emptyCaches, fetchCalls := 1 } ∧
    resourceUnavailableResponse.status = 503) :=
  ⟨rfl, by decide,
    cacheFirst_non200_returns_network_response imgRequest emptyCaches notFoundResponse rfl
      (by decide)⟩

/-- C2: a cache-first request with an existing matching cache entry
resolves with the cached entry, leaves the caches unchanged, and performs
zero network fetches, whatever the network would have answered. -/
theorem cacheFirst_hit_no_fetch (req : Request) (net : NetworkResult) (st : CacheState)
    (r : Response) (hhit : cachesMatch st req.url = some r) :
    cacheFirst req net st = { response := some r, state := st, fetchCalls := 0 } := by
  simp [cacheFirst, hhit]

/-- C2 witness. -/
theorem cacheFirst_hit_no_fetch_witness :
    cachesMatch pngCaches imgRequest.url = some cachedPng ∧
    cacheFirst imgRequest NetworkResult.err pngCaches =
      { response := some cachedPng, state := pngCaches, fetchCalls := 0 } :=
  ⟨rfl, cacheFirst_hit_no_fetch imgRequest NetworkResult.err pngCaches cachedPng rfl⟩

/-- C3: a network-first navigation request whose fetch throws and whose
own key has no cached entry resolves with the cached entry document
stored under the root key. -/
theorem networkFirst_navigate_offline_fallback (req : Request) (st : CacheState)
    (r : Response) (hmiss : cachesMatch st req.url = none) (hnav : req.mode = "navigate")
    (hidx : cachesMatch st "/index.html" = some r) :
    networkFirst req NetworkResult.err st =
      { response := some r, state := st, fetchCalls := 1 } := by
  simp only [networkFirst, hmiss]
  simp [hnav, hidx]

/-- C3 witness. -/
theorem networkFirst_navigate_offline_fallback_witness :
    cachesMatch navCaches navRequest.url = none ∧ navRequest.mode = "navigate" ∧
    cachesMatch navCaches "/index.html" = some idxResponse ∧
    networkFirst navRequest NetworkResult.err navCaches =
      { response := some idxResponse, state := navCaches, fetchCalls := 1 } :=
  ⟨rfl, rfl, rfl,
    networkFirst_navigate_offline_fallback navRequest navCaches idxResponse rfl rfl rfl⟩

/-- C4: a network-first non-navigation request whose fetch throws and
whose key has no cached entry resolves with the synthesized response of
status 408 and a plain-text body; the executor is a total function, so no
rejection escapes the handler boundary. -/
theorem networkFirst_non_navigate_408 (req : Request) (st : CacheState)
    (hmiss : cachesMatch st req.url = none) (hnav : req.mode ≠ "navigate") :
    networkFirst req NetworkResult.err st =
      { response := some networkErrorResponse, state := st, fetchCalls := 1 } ∧
    networkErrorResponse.status = 408 ∧ networkErrorResponse.contentType = "text/plain" := by
  refine ⟨?_, rfl, rfl⟩
  simp only [networkFirst, hmiss]
  simp [hnav]

/-- C4 witness. -/
theorem networkFirst_non_navigate_408_witness :
    cachesMatch emptyCaches apiRequest.url = none ∧ apiRequest.mode ≠ "navigate" ∧
    (networkFirst apiRequest NetworkResult.err emptyCaches =
      { response := some networkErrorResponse, state := emptyCaches, fetchCalls := 1 } ∧
    networkErrorResponse.status = 408 ∧ networkErrorResponse.contentType = "text/plain") :=
  ⟨rfl, by decide, networkFirst_non_navigate_408 apiRequest emptyCaches rfl (by decide)⟩

/-- C5: reclaim deletes exactly the existing names outside the
current-names set and is total (it always succeeds); the activate handler
is its instance at the current static and dynamic names; on the spec
scenario only the stale v0 name is deleted. -/
theorem reclaim_deletes_exactly_stale :
    (∀ (currentNames existing : List String) (n : String),
      n ∈ reclaimDeletes currentNames existing ↔ (n ∈ existing ∧ n ∉ currentNames)) ∧
    (∀ existing : List String,
      activateReclaim existing = reclaimDeletes [CACHE_NAME, DYNAMIC_CACHE] existing) ∧
    reclaimDeletes ["v1-static", "v1-dynamic"] ["v1-static", "v1-dynamic", "v0-static"] =
      ["v0-static"] := by
  refine ⟨?_, ?_, by decide⟩
  · intro c e n
    simp [reclaimDeletes, List.mem_filter]
  · intro e
    simp only [activateReclaim, reclaimDeletes]
    apply List.filter_congr
    intro n _
    cases h1 : n == CACHE_NAME <;> cases h2 : n == DYNAMIC_CACHE <;>
      simp [List.contains, List.elem, bne, h1, h2]

/-- C6: reclaim is idempotent: on the name set surviving a first reclaim,
a second reclaim with the same current-names set deletes nothing and
leaves the surviving names unchanged. -/
theorem reclaim_idempotent (currentNames existing : List String) :
    reclaimDeletes currentNames (reclaimRemaining currentNames existing) = [] ∧
    reclaimRemaining currentNames (reclaimRemaining currentNames existing) =
      reclaimRemaining currentNames existing := by
  constructor
  · simp only [reclaimDeletes, reclaimRemaining]
    rw [List.filter_filter]
    apply List.filter_eq_nil_iff.mpr
    intro n _
    cases h : currentNames.contains n <;> simp [h]
  · simp only [reclaimRemaining]
    rw [List.filter_filter]
    apply List.filter_congr
    intro n _
    cases h : currentNames.contains n <;> simp [h]

/-- C7: an intercepted GET request on an http scheme whose accept header
is absent or includes an HTML document type is classified network-first,
whatever its URL, so URL static-asset patterns cannot override the
earlier accept-header rules. -/
theorem selector_html_or_absent_networkFirst (req : Request)
    (hm : req.method = "GET")
    (hp : strStartsWith (urlProtocol req.url) "http" = true)
    (ha : req.accept = none ∨
      ∃ a, req.accept = some a ∧ strIncludes a "text/html" = true) :
    selectStrategy req = Strategy.networkFirstTag := by
  unfold selectStrategy
  rcases ha with ha | ⟨a, ha, hh⟩
  · simp [ha, hm, hp]
  · simp [ha, hm, hp, hh]

/-- C7 witness: a request whose URL matches the static-asset pattern for
style sheets and a known CDN origin, yet classifies network-first because
its accept header asks for HTML. -/
theorem selector_html_or_absent_networkFirst_witness :
    cssHtmlRequest.method = "GET" ∧
    strStartsWith (urlProtocol cssHtmlRequest.url) "http" = true ∧
    strIncludes cssHtmlRequest.url ".css" = true ∧
    strIncludes cssHtmlRequest.url "cdn.jsdelivr.net" = true ∧
    selectStrategy cssHtmlRequest = Strategy.networkFirstTag :=
  ⟨rfl, by decide, by decide, by decide,
    selector_html_or_absent_networkFirst cssHtmlRequest rfl (by decide)
      (Or.inr ⟨"text/html", rfl, by decide⟩)⟩

/-- C8: across every dispatch of the fetch handler, the static generation
is never mutated, and the dynamic generation either stays unchanged or
records exactly one write-through of a status-200 network response under
the URL of a GET request. -/
theorem write_through_only_dynamic_200 (req : Request) (net : NetworkResult) (st : CacheState) :
    ((handleFetch req net st).stateAfter st).staticEntries = st.staticEntries ∧
    (((handleFetch req net st).stateAfter st).dynamicEntries = st.dynamicEntries ∨
      (req.method = "GET" ∧ ∃ resp, net = NetworkResult.ok resp ∧ resp.status = 200 ∧
        ((handleFetch req net st).stateAfter st).dynamicEntries =
          putEntry st.dynamicEntries req.url resp)) := by
  rw [handleFetch_eq_dispatch req net st]
  cases hsel : selectStrategy req with
  | bypass => exact ⟨rfl, Or.inl rfl⟩
  | networkFirstTag =>
    have hm : req.method = "GET" :=
      selectStrategy_get_of_not_bypass req (by simp [hsel])
    obtain ⟨hs, hd⟩ := networkFirst_frame req net st
    refine ⟨hs, ?_⟩
    rcases hd with hd | ⟨resp, hnet, h200, hput⟩
    · exact Or.inl hd
    · exact Or.inr ⟨hm, resp, hnet, h200, hput⟩
  | cacheFirstTag =>
    have hm : req.method = "GET" :=
      selectStrategy_get_of_not_bypass req (by simp [hsel])
    obtain ⟨hs, hd⟩ := cacheFirst_frame req net st
    refine ⟨hs, ?_⟩
    rcases hd with hd | ⟨resp, hnet, h200, hput⟩
    · exact Or.inl hd
    · exact Or.inr ⟨hm, resp, hnet, h200, hput⟩
  | staleWhileRevalidateTag => exact absurd hsel (selectStrategy_not_swr req)

/-- C9: a network-first navigation request whose fetch throws, with no
cached entry under its own key nor under the root key, resolves with the
empty lookup result (no response at all) rather than a synthesized error
response. -/
theorem networkFirst_navigate_double_miss_none (req : Request) (st : CacheState)
    (hmiss : cachesMatch st req.url = none) (hnav : req.mode = "navigate")
    (hidx : cachesMatch st "/index.html" = none) :
    networkFirst req NetworkResult.err st =
      { response := none, state := st, fetchCalls := 1 } := by
  simp only [networkFirst, hmiss]
  simp [hnav, hidx]

/-- C9 witness. -/
theorem networkFirst_navigate_double_miss_none_witness :
    cachesMatch emptyCaches navRequest.url = none ∧ navRequest.mode = "navigate" ∧
    cachesMatch emptyCaches "/index.html" = none ∧
    networkFirst navRequest NetworkResult.err emptyCaches =
      { response := none, state := emptyCaches, fetchCalls := 1 } :=
  ⟨rfl, rfl, rfl,
    networkFirst_navigate_double_miss_none navRequest emptyCaches rfl rfl rfl⟩

/-- C10: every dispatch of the fetch handler is a bypass, a network-first
execution, or a cache-first execution; the selector never produces the
stale-while-revalidate tag, so that executor is never invoked. -/
theorem fetch_dispatch_never_swr (req : Request) (net : NetworkResult) (st : CacheState) :
    selectStrategy req ≠ Strategy.staleWhileRevalidateTag ∧
    (handleFetch req net st = FetchOutcome.bypass ∨
      handleFetch req net st = FetchOutcome.respond (networkFirst req net st) ∨
      handleFetch req net st = FetchOutcome.respond (cacheFirst req net st)) := by
  refine ⟨selectStrategy_not_swr req, ?_⟩
  rw [handleFetch_eq_dispatch req net st]
  cases hsel : selectStrategy req with
  | bypass => exact Or.inl rfl
  | networkFirstTag => exact Or.inr (Or.inl rfl)
  | cacheFirstTag => exact Or.inr (Or.inr rfl)
  | staleWhileRevalidateTag => exact absurd hsel (selectStrategy_not_swr req)

end Reservin
